import Mathlib

set_option maxHeartbeats 1000000

/-!
Verification of the A2A JSON-RPC motivation agent.

Shallow embedding of src/agent.py and src/main.py.  Python values exchanged
over JSON are modelled by the Json inductive (numbers restricted to integers,
which covers every value the verified code paths inspect); the outcomes of the
outbound HTTP calls (the remote chat-completion request and the webhook POST)
are passed in explicitly as parameters, since they are external effects.
-/

/-- JSON values as handled by the service. -/
inductive Json where
  | null : Json
  | bool : Bool → Json
  | num : Int → Json
  | str : String → Json
  | arr : List Json → Json
  | obj : List (String × Json) → Json

mutual

/-- Python equality between JSON values (structural; cross-type numeric
comparisons such as True == 1 never arise on the verified paths). -/
def Json.beq : Json → Json → Bool
  | Json.null, Json.null => true
  | Json.bool a, Json.bool b => a == b
  | Json.num a, Json.num b => a == b
  | Json.str a, Json.str b => a == b
  | Json.arr a, Json.arr b => Json.beqList a b
  | Json.obj a, Json.obj b => Json.beqObj a b
  | _, _ => false

/-- Elementwise Python equality of JSON lists. -/
def Json.beqList : List Json → List Json → Bool
  | [], [] => true
  | x :: xs, y :: ys => Json.beq x y && Json.beqList xs ys
  | _, _ => false

/-- Entrywise Python equality of JSON objects. -/
def Json.beqObj : List (String × Json) → List (String × Json) → Bool
  | [], [] => true
  | (k, v) :: xs, (k', v') :: ys => k == k' && Json.beq v v' && Json.beqObj xs ys
  | _, _ => false

end

/-- Python truthiness of a JSON value (None, False, 0, empty string, empty
list and empty dict are falsy). -/
def pyTruthy : Json → Bool
  | Json.null => false
  | Json.bool b => b
  | Json.num n => n != 0
  | Json.str s => s != ""
  | Json.arr l => !l.isEmpty
  | Json.obj l => !l.isEmpty

/-- Python dict.get with an explicit default. -/
def pyGetD (kvs : List (String × Json)) (k : String) (d : Json) : Json :=
  match kvs with
  | [] => d
  | (k', v) :: rest => if k' = k then v else pyGetD rest k d

/-- Python dict.get with default None. -/
def pyGet (kvs : List (String × Json)) (k : String) : Json :=
  pyGetD kvs k Json.null

/-- dict.get on a JSON value; the verified code only applies this to dicts
(the shapes on which the Python would not raise). -/
def pyGetJ (j : Json) (k : String) : Json :=
  match j with
  | Json.obj kvs => pyGet kvs k
  | _ => Json.null

mutual

/-- Python repr of a JSON value (string escaping inside containers is not
reproduced; no verified path depends on it). -/
def pyRepr : Json → String
  | Json.null => "None"
  | Json.bool true => "True"
  | Json.bool false => "False"
  | Json.num n => toString n
  | Json.str s => "\x27" ++ s ++ "\x27"
  | Json.arr l => "[" ++ pyReprList l ++ "]"
  | Json.obj kvs => "\x7b" ++ pyReprObj kvs ++ "\x7d"

/-- Comma-separated reprs of a list of JSON values. -/
def pyReprList : List Json → String
  | [] => ""
  | [x] => pyRepr x
  | x :: y :: rest => pyRepr x ++ ", " ++ pyReprList (y :: rest)

/-- Comma-separated reprs of the entries of a JSON object. -/
def pyReprObj : List (String × Json) → String
  | [] => ""
  | [(k, v)] => "\x27" ++ k ++ "\x27: " ++ pyRepr v
  | (k, v) :: e :: rest => "\x27" ++ k ++ "\x27: " ++ pyRepr v ++ ", " ++ pyReprObj (e :: rest)

end

/-- Python str() of a JSON value. -/
def pyStr : Json → String
  | Json.str s => s
  | j => pyRepr j

/-- Python str.isspace characters relevant to str.strip (ASCII whitespace). -/
def pyIsSpace (c : Char) : Bool :=
  c == ' ' || c == '\t' || c == '\n' || c == '\r' || c == '\x0b' || c == '\x0c'

/-- Strip whitespace from both ends of a character list (Python str.strip). -/
def stripList (l : List Char) : List Char :=
  ((l.dropWhile pyIsSpace).reverse.dropWhile pyIsSpace).reverse

/-- Python str.strip(). -/
def pyStrip (s : String) : String :=
  String.mk (stripList s.toList)

/-- Python str.lower() (ASCII; the keyword sets are ASCII). -/
def pyLower (s : String) : String :=
  String.mk (s.toList.map Char.toLower)

/-- Whether the first list is a leading segment of the second. -/
def isLeadingSeg : List Char → List Char → Bool
  | [], _ => true
  | _ :: _, [] => false
  | a :: as, b :: bs => a == b && isLeadingSeg as bs

/-- Whether the first list occurs as a contiguous run inside the second. -/
def hasSubstr (needle : List Char) : List Char → Bool
  | [] => needle.isEmpty
  | c :: rest => isLeadingSeg needle (c :: rest) || hasSubstr needle rest

/-- The Python membership test w in text for strings. -/
def pyContains (text w : String) : Bool :=
  hasSubstr w.toList text.toList

/-- Python any(w in text for w in ws). -/
def containsAny (text : String) (ws : List String) : Bool :=
  ws.any (fun w => pyContains text w)

/-- The rule-based generator of src/agent.py lines 12-40: classify the
lowercased input against five keyword categories, first match wins, and
return that category's fixed three-message template. -/
def _rule_based_motivation (user_input : String) : List String :=
  let text := pyLower user_input
  if containsAny text ["exam", "test", "quiz", "midterm", "final"] then
    ["You've prepared for this! Trust your knowledge and take it one question at a time. 📚",
     "Take deep breaths before starting. A calm mind recalls information better than a stressed one. 🧘",
     "Remember: You don't need perfection, just progress. Answer what you know first, then tackle the rest. ✨"]
  else if containsAny text ["tired", "exhausted", "burnout"] then
    ["You're allowed to rest — take a short, intentional break and come back with fresh energy.",
     "Break your work into 15-minute sprints; small wins will rebuild momentum.",
     "Celebrate one tiny thing you did well today, however small."]
  else if containsAny text ["stuck", "blocked", "can't", "cannot", "unable"] then
    ["Try one small experiment — a tiny step reduces decision friction and often reveals the way forward.",
     "Ask a colleague or write down the exact constraint; naming it often clarifies a solution.",
     "If it's big, split it into 'next actions' you can complete in under 30 minutes."]
  else if containsAny text ["sad", "down", "depressed", "unhappy"] then
    ["You matter. Name one thing that made you smile recently and keep it close.",
     "Do a 5-minute grounding exercise: breathe deeply and list 3 facts around you.",
     "If this persists, consider reaching out to someone you trust or a professional."]
  else
    ["You're closer than you think — focus on the next small step and start there.",
     "Set a 25-minute timer and do one thing; momentum builds quickly from action.",
     "Remember progress beats perfection: aim for progress today, no matter how small."]

/-- The enumeration-marker stripper of src/agent.py line 121: the anchored
regex sub removing optional leading whitespace, one or more digits, an
optional single one of the characters close-paren, dot, colon, dash, and
trailing whitespace; when no digits follow the leading whitespace the regex
does not match and the line is left unchanged. -/
def stripEnum (l : List Char) : List Char :=
  let l1 := l.dropWhile pyIsSpace
  if (l1.takeWhile Char.isDigit).isEmpty then l
  else
    let l2 := l1.dropWhile Char.isDigit
    let l3 := match l2 with
              | c :: rest => if c == ')' || c == '.' || c == ':' || c == '-' then rest else l2
              | [] => l2
    l3.dropWhile pyIsSpace

/-- The line-splitting fallback of src/agent.py lines 120-123: keep the
non-blank lines of the reply, strip enumeration markers and surrounding
whitespace, and take at most three.  Python splitlines is modelled as
splitting on the newline character; the other line terminators it also
recognises do not occur on the verified paths. -/
def linesClean (content : String) : List String :=
  (((content.splitOn "\n").filter (fun ln => pyStrip ln != "")).map
    (fun ln => pyStrip (String.mk (stripEnum ln.toList)))).take 3

/-- The JSON-array branch of src/agent.py lines 117-118: when the decoded
value is a list, str() and strip() each element and keep at most three. -/
def parseArrayBranch (j : Json) : List String :=
  match j with
  | Json.arr xs => (xs.map (fun x => pyStrip (pyStr x))).take 3
  | _ => []

/-- One attempted remote chat-completion call, seen from the parsing code of
src/agent.py lines 89-130.  httpError stands for any raised transport or
status error (request exception, timeout, raise_for_status).  In the response
case, content is the extracted textual reply and arrMatch is the combined
outcome of the re.search for a bracketed substring and json.loads on it:
none when the regex finds no bracketed substring, some none when json.loads
raises on it, and some (some j) when it decodes to j. -/
inductive RemoteCall where
  | httpError : RemoteCall
  | response (content : String) (arrMatch : Option (Option Json)) : RemoteCall

/-- The suggestion extraction of src/agent.py lines 107-130.  When json.loads
raises, the except on line 124 catches it after the lines fallback was
skipped, leaving no suggestions; an empty final list raises on line 128,
modelled as the error outcome. -/
def call_remote_model : RemoteCall → Except Unit (List String)
  | RemoteCall.httpError => Except.error ()
  | RemoteCall.response content arrMatch =>
    let suggestions :=
      match arrMatch with
      | some none => []
      | some (some j) =>
        let fromArr := parseArrayBranch j
        if fromArr.isEmpty then linesClean content else fromArr
      | none => linesClean content
    if suggestions.isEmpty then Except.error () else Except.ok suggestions

/-- The ambient remote configuration plus, when configured, the outcome of
the single remote call generate_motivation would make (src/agent.py lines
143-151): notConfigured models a missing OPENAI_API_KEY or OPENAI_BASE_URL. -/
inductive RemoteEnv where
  | notConfigured : RemoteEnv
  | configured (call : RemoteCall) : RemoteEnv

/-- The only error generate_motivation itself raises (the ValueError of
src/agent.py line 140); remote failures are absorbed on lines 149-150. -/
inductive GenError where
  | invalidInput : GenError
  deriving DecidableEq

/-- The dict returned by generate_motivation. -/
structure GenResult where
  motivations : List String
  source : String
  deriving DecidableEq

/-- The validation condition of src/agent.py line 139: the input is rejected
when it is not a string or strips to the empty string. -/
def invalid_user_input : Json → Bool
  | Json.str s => pyStrip s == ""
  | _ => true

/-- generate_motivation of src/agent.py lines 133-158: validate the input,
try the remote model only when configured, absorb any remote failure into
the rule-based local fallback. -/
def generate_motivation (env : RemoteEnv) (user_input : Json) : Except GenError GenResult :=
  match user_input with
  | Json.str s =>
    if pyStrip s == "" then Except.error GenError.invalidInput
    else
      match env with
      | RemoteEnv.notConfigured =>
        Except.ok { motivations := _rule_based_motivation s, source := "local" }
      | RemoteEnv.configured call =>
        match call_remote_model call with
        | Except.ok suggestions =>
          Except.ok { motivations := suggestions, source := "remote_model" }
        | Except.error _ =>
          Except.ok { motivations := _rule_based_motivation s, source := "local" }
  | _ => Except.error GenError.invalidInput

/-- One output entry of the A2A response (src/main.py lines 171-174). -/
structure Output where
  kind : String
  text : String
  deriving DecidableEq

/-- One invocation of the Webhook Notifier, as recorded at the call site on
src/main.py line 183. -/
structure WebhookCall where
  url : Json
  token : Json
  outputs : List Output
  message_id : Json

/-- What the handler produces for one request: the HTTP status, the JSON
body, and the list of webhook deliveries it attempted. -/
structure HandlerResult where
  status : Nat
  body : Json
  webhooks : List WebhookCall

/-- The webhook notifier send_webhook_notification of src/main.py lines
61-93, seen from the outcome of its single POST: error is any raised
exception (connection failure, timeout), ok n a response with status n.
The function makes exactly one attempt, never retries and never raises;
success is membership of the status in the literal list on line 90. -/
def send_webhook_notification (attempt : Except Unit Nat) : Bool :=
  match attempt with
  | Except.ok status => status == 200 || status == 201 || status == 202 || status == 204
  | Except.error _ => false

/-- The JSON-RPC error body builder jsonrpc_error of src/main.py lines 57-58. -/
def jsonrpc_error (code : Int) (message : String) (id_val : Json) : Json :=
  Json.obj [("jsonrpc", Json.str "2.0"),
            ("error", Json.obj [("code", Json.num code), ("message", Json.str message)]),
            ("id", id_val)]

/-- The scanner behind the tag-removing substitution re.sub of src/main.py
line 143.  Outside a candidate tag the state is none; after an open angle
the state holds the candidate tag body collected so far, reversed.  The
first close angle ends the candidate: a non-empty body means the regex
matched from that open angle, so open angle, body and close angle are
replaced by one space; an empty body means the regex has no match at that
open angle, so both characters stay.  An open angle never followed by a
close angle also matches nothing and every character stays. -/
def stripTagsSt : Option (List Char) → List Char → List Char
  | none, [] => []
  | none, c :: rest =>
    if c == '<' then stripTagsSt (some []) rest
    else c :: stripTagsSt none rest
  | some acc, [] => '<' :: acc.reverse
  | some acc, c :: rest =>
    if c == '>' then
      if acc.isEmpty then '<' :: '>' :: stripTagsSt none rest
      else ' ' :: stripTagsSt none rest
    else stripTagsSt (some (c :: acc)) rest

/-- The tag-removing substitution re.sub of src/main.py line 143: each run
formed of an open angle, one or more non-close-angle characters and a close
angle is replaced by a single space. -/
def stripTags (l : List Char) : List Char :=
  stripTagsSt none l

/-- The whitespace-collapsing substitution re.sub of src/main.py line 144:
every maximal run of whitespace becomes a single space.  The flag records
whether the previous character was part of a whitespace run. -/
def collapseWsAux : Bool → List Char → List Char
  | _, [] => []
  | prevSpace, c :: rest =>
    if pyIsSpace c then
      if prevSpace then collapseWsAux true rest
      else ' ' :: collapseWsAux true rest
    else c :: collapseWsAux false rest

/-- The per-part extraction of src/main.py lines 139-147: keep dict parts of
kind text whose text strips to something non-empty, remove HTML-like tags,
collapse whitespace, strip, and drop the filler words.  Parts whose text
field is present but not a string are outside the modelled envelope shapes
(the Python strip call would raise there). -/
def process_part (part : Json) : Option String :=
  match part with
  | Json.obj kvs =>
    if Json.beq (pyGet kvs "kind") (Json.str "text") then
      let raw := match pyGetD kvs "text" (Json.str "") with
                 | Json.str s => s
                 | _ => ""
      let text := pyStrip raw
      if text == "" then none
      else
        let t1 := String.mk (stripTags text.toList)
        let t2 := String.mk (collapseWsAux false t1.toList)
        let t3 := pyStrip t2
        if t3 != "" && !(pyLower t3 == "ok" || pyLower t3 == "more") then some t3
        else none
    else none
  | _ => none

/-- The collected_texts accumulation of src/main.py lines 137-147. -/
def collected_texts (parts : List Json) : List String :=
  parts.filterMap process_part

/-- Python max over strings with key len: keep the current maximum, replace
it only when a strictly longer element appears (so ties keep the earliest). -/
def pickLonger (m y : String) : String :=
  if m.length < y.length then y else m

/-- Python max(collected_texts, key=len) on src/main.py line 151, none on an
empty list. -/
def pyMaxByLen : List String → Option String
  | [] => none
  | x :: xs => some (xs.foldl pickLonger x)

/-- The user-input selection of src/main.py lines 130-160 given the message
object: collect candidate texts from the parts list, select the longest, and
fall back to the default input when nothing qualifies.  A parts field that
is present but not a list is outside the modelled envelope shapes (the
Python for loop would raise there). -/
def user_input_of (message_obj : Json) : String :=
  match message_obj with
  | Json.obj mkvs =>
    let parts := match pyGetD mkvs "parts" (Json.arr []) with
                 | Json.arr ps => ps
                 | _ => []
    match pyMaxByLen (collected_texts parts) with
    | some m => if m == "" then "Give me motivation" else m
    | none => "Give me motivation"
  | _ => "Give me motivation"

/-- The messageId extraction of src/main.py line 134. -/
def message_id_of (message_obj : Json) : Json :=
  match message_obj with
  | Json.obj mkvs => pyGet mkvs "messageId"
  | _ => Json.null

/-- The message object extraction of src/main.py line 132 (params.get with
an empty-dict default; a non-dict params leaves every field at its default,
matching the isinstance guard on line 130). -/
def message_obj_of (params : Json) : Json :=
  match params with
  | Json.obj pkvs => pyGetD pkvs "message" (Json.obj [])
  | _ => Json.obj []

/-- The blocking flag extraction of src/main.py lines 128 and 154-156
(default True when params or configuration is not a dict). -/
def blocking_of (params : Json) : Json :=
  match params with
  | Json.obj pkvs =>
    match pyGetD pkvs "configuration" (Json.obj []) with
    | Json.obj ckvs => pyGetD ckvs "blocking" (Json.bool true)
    | _ => Json.bool true
  | _ => Json.bool true

/-- The pushNotificationConfig extraction of src/main.py lines 154-157
(None when params or configuration is not a dict). -/
def webhook_of (params : Json) : Json :=
  match params with
  | Json.obj pkvs =>
    match pyGetD pkvs "configuration" (Json.obj []) with
    | Json.obj ckvs => pyGet ckvs "pushNotificationConfig"
    | _ => Json.null
  | _ => Json.null

/-- The JSON rendering of one output entry. -/
def output_json (o : Output) : Json :=
  Json.obj [("kind", Json.str o.kind), ("text", Json.str o.text)]

/-- The 200 success body both message/send branches build on src/main.py
lines 200-204 and 215. -/
def ms_success_body (outputs : List Output) (id_val : Json) : Json :=
  Json.obj [("jsonrpc", Json.str "2.0"),
            ("result", Json.obj [("outputs", Json.arr (outputs.map output_json))]),
            ("id", id_val)]

/-- process_and_respond of src/main.py lines 164-188, seen from the outcome
of its generate_motivation call: on success it builds the outputs and, when
blocking is falsy and the webhook config with url, token and messageId are
all truthy, performs the single webhook delivery of line 183; on any raised
generation error the except on line 186 swallows it and yields an empty
outputs list with no webhook delivery. -/
def process_and_respond (gen : Except GenError GenResult)
    (blocking webhook_config message_id : Json) : List Output × List WebhookCall :=
  match gen with
  | Except.error _ => ([], [])
  | Except.ok result =>
    let outputs := result.motivations.map (fun m => { kind := "text", text := m : Output })
    let calls :=
      if !pyTruthy blocking && pyTruthy webhook_config then
        let webhook_url := pyGetJ webhook_config "url"
        let token := pyGetJ webhook_config "token"
        if pyTruthy webhook_url && pyTruthy token && pyTruthy message_id then
          [{ url := webhook_url, token := token, outputs := outputs, message_id := message_id }]
        else []
      else []
    (outputs, calls)

/-- The response construction of src/main.py lines 190-218: both the
non-blocking-with-url branch (line 191) and the default branch (line 209)
call process_and_respond once and wrap its outputs in the same 200 envelope;
the 500 except branches of lines 205-207 and 216-218 are unreachable because
process_and_respond catches every generation error itself. -/
def message_send_respond (gen : Except GenError GenResult)
    (blocking webhook_config message_id id_val : Json) : HandlerResult :=
  let pr := process_and_respond gen blocking webhook_config message_id
  if !pyTruthy blocking && pyTruthy webhook_config && pyTruthy (pyGetJ webhook_config "url") then
    { status := 200, body := ms_success_body pr.1 id_val, webhooks := pr.2 }
  else
    { status := 200, body := ms_success_body pr.1 id_val, webhooks := pr.2 }

/-- The whole message/send method handler of src/main.py lines 123-218,
given the params and id of the envelope. -/
def message_send (env : RemoteEnv) (params id_val : Json) : HandlerResult :=
  let msg := message_obj_of params
  let user_input := user_input_of msg
  let message_id := message_id_of msg
  let blocking := blocking_of params
  let webhook_config := webhook_of params
  let gen := generate_motivation env (Json.str user_input)
  message_send_respond gen blocking webhook_config message_id id_val

/-- What str(ValueError) yields for the generation errors (src/agent.py
line 140). -/
def gen_error_message : GenError → String
  | GenError.invalidInput => "user_input must be a non-empty string"

/-- The motivate method handler of src/main.py lines 221-237. -/
def motivate_method (env : RemoteEnv) (params id_val : Json) : HandlerResult :=
  let user_input : Json :=
    match params with
    | Json.obj pkvs =>
      if pyTruthy (pyGet pkvs "input") then pyGet pkvs "input" else pyGet pkvs "message"
    | Json.arr (x :: _) => x
    | _ => Json.null
  if !pyTruthy user_input then
    { status := 400,
      body := jsonrpc_error (-32602) "Invalid params: 'input' or 'message' is required" id_val,
      webhooks := [] }
  else
    match generate_motivation env user_input with
    | Except.ok r =>
      { status := 200,
        body := Json.obj [("jsonrpc", Json.str "2.0"),
                          ("result", Json.obj [("motivations", Json.arr (r.motivations.map Json.str)),
                                               ("source", Json.str r.source)]),
                          ("id", id_val)],
        webhooks := [] }
    | Except.error e =>
      { status := 500,
        body := jsonrpc_error (-32000) ("Server error: " ++ gen_error_message e) id_val,
        webhooks := [] }

/-- The endpoint handler handle_jsonrpc of src/main.py lines 96-239 for a
request body that parsed as JSON (the -32700 parse-error path is upstream of
the payload and not modelled).  Validation order follows lines 107-123:
non-dict payload, protocol version, falsy method, then method dispatch. -/
def handle_jsonrpc (env : RemoteEnv) (payload : Json) : HandlerResult :=
  match payload with
  | Json.obj kvs =>
    let jsonrpc := pyGet kvs "jsonrpc"
    let method := pyGet kvs "method"
    let params := if pyTruthy (pyGet kvs "params") then pyGet kvs "params" else Json.obj []
    let id_val := pyGet kvs "id"
    if !(Json.beq jsonrpc (Json.str "2.0")) then
      { status := 400,
        body := jsonrpc_error (-32600) "Invalid Request: unsupported jsonrpc version" id_val,
        webhooks := [] }
    else if !pyTruthy method then
      { status := 400, body := jsonrpc_error (-32601) "Method not found" id_val, webhooks := [] }
    else if Json.beq method (Json.str "message/send") then
      message_send env params id_val
    else if Json.beq method (Json.str "motivate") then
      motivate_method env params id_val
    else
      { status := 404,
        body := jsonrpc_error (-32601) ("Method '" ++ pyStr method ++ "' not found") id_val,
        webhooks := [] }
  | _ =>
    { status := 400, body := jsonrpc_error (-32600) "Invalid Request" Json.null, webhooks := [] }

/-- A sample message/send params object with blocking false and a complete
push notification config, used as concrete witness input. -/
def sample_params_full : Json :=
  Json.obj [
    ("message", Json.obj [
      ("messageId", Json.str "msg-1"),
      ("parts", Json.arr [Json.obj [("kind", Json.str "text"),
        ("text", Json.str "I feel stuck")]])]),
    ("configuration", Json.obj [
      ("blocking", Json.bool false),
      ("pushNotificationConfig", Json.obj [
        ("url", Json.str "https://example.com/hook"), ("token", Json.str "tok-1")])])]

/-- A sample params object like sample_params_full but whose push
notification config carries no token. -/
def sample_params_no_token : Json :=
  Json.obj [
    ("message", Json.obj [
      ("messageId", Json.str "msg-1"),
      ("parts", Json.arr [])]),
    ("configuration", Json.obj [
      ("blocking", Json.bool false),
      ("pushNotificationConfig", Json.obj [("url", Json.str "https://example.com/hook")])])]

/-- Two sample text parts: a filler word and a longer meaningful text. -/
def sample_parts : List Json :=
  [Json.obj [("kind", Json.str "text"), ("text", Json.str "ok")],
   Json.obj [("kind", Json.str "text"), ("text", Json.str "I am stuck and need help")]]

/-! Helper lemmas about the Python string primitives. -/

theorem toList_mk (l : List Char) : (String.mk l).toList = l := rfl

theorem mk_eq_empty_iff (l : List Char) : String.mk l = "" ↔ l = [] := by
  constructor
  · intro h
    have : (String.mk l).toList = ("" : String).toList := by rw [h]
    simpa [toList_mk] using this
  · intro h; rw [h]

theorem dropWhile_idem (p : Char → Bool) (l : List Char) :
    (l.dropWhile p).dropWhile p = l.dropWhile p := by
  induction l with
  | nil => rfl
  | cons c rest ih =>
    by_cases h : p c = true
    · simp [List.dropWhile_cons, h, ih]
    · simp [List.dropWhile_cons, h]

theorem head_false_of_dropWhile_self (p : Char → Bool) (x : Char) (ys : List Char)
    (h : (x :: ys).dropWhile p = x :: ys) : p x = false := by
  by_cases hx : p x = true
  · rw [List.dropWhile_cons, if_pos hx] at h
    have hle := List.Sublist.length_le (List.dropWhile_sublist (p := p) (l := ys))
    have hl := congrArg List.length h
    simp at hl
    omega
  · simpa using hx

theorem dropWhile_stripList (l : List Char) :
    (stripList l).dropWhile pyIsSpace = stripList l := by
  obtain ⟨t, ht⟩ := List.dropWhile_suffix (l := (l.dropWhile pyIsSpace).reverse) (p := pyIsSpace)
  have ha : l.dropWhile pyIsSpace = stripList l ++ t.reverse := by
    have := congrArg List.reverse ht
    simpa [stripList, List.reverse_append] using this.symm
  have hfix : (l.dropWhile pyIsSpace).dropWhile pyIsSpace = l.dropWhile pyIsSpace :=
    dropWhile_idem _ _
  cases hs : stripList l with
  | nil => rfl
  | cons x xs =>
    have hx : pyIsSpace x = false := by
      apply head_false_of_dropWhile_self pyIsSpace x (xs ++ t.reverse)
      have : l.dropWhile pyIsSpace = x :: (xs ++ t.reverse) := by
        rw [ha, hs, List.cons_append]
      rw [← this]
      exact hfix
    rw [List.dropWhile_cons, if_neg (by simp [hx])]

theorem dropWhile_reverse_stripList (l : List Char) :
    (stripList l).reverse.dropWhile pyIsSpace = (stripList l).reverse := by
  unfold stripList
  rw [List.reverse_reverse]
  exact dropWhile_idem _ _

theorem stripList_idem (l : List Char) : stripList (stripList l) = stripList l :=
  calc stripList (stripList l)
      = (((stripList l).dropWhile pyIsSpace).reverse.dropWhile pyIsSpace).reverse := rfl
    _ = ((stripList l).reverse.dropWhile pyIsSpace).reverse := by rw [dropWhile_stripList]
    _ = ((stripList l).reverse).reverse := by rw [dropWhile_reverse_stripList]
    _ = stripList l := List.reverse_reverse _

theorem pyStrip_idem (s : String) : pyStrip (pyStrip s) = pyStrip s := by
  unfold pyStrip
  rw [toList_mk, stripList_idem]

theorem isLeadingSeg_iff (n : List Char) :
    ∀ h, isLeadingSeg n h = true ↔ ∃ t, h = n ++ t := by
  induction n with
  | nil => intro h; simp [isLeadingSeg]
  | cons a as ih =>
    intro h
    cases h with
    | nil =>
      simp only [isLeadingSeg]
      constructor
      · intro hc; exact absurd hc (by simp)
      · rintro ⟨t, ht⟩; simp at ht
    | cons b bs =>
      simp only [isLeadingSeg, Bool.and_eq_true, beq_iff_eq]
      rw [ih bs]
      constructor
      · rintro ⟨rfl, t, rfl⟩; exact ⟨t, rfl⟩
      · rintro ⟨t, ht⟩
        rw [List.cons_append] at ht
        injection ht with h1 h2
        exact ⟨h1.symm, t, h2⟩

theorem hasSubstr_iff (n : List Char) :
    ∀ h, hasSubstr n h = true ↔ ∃ p t, h = p ++ n ++ t := by
  intro h
  induction h with
  | nil =>
    simp only [hasSubstr, List.isEmpty_iff]
    constructor
    · intro hn; exact ⟨[], [], by simp [hn]⟩
    · rintro ⟨p, t, ht⟩
      rcases List.append_eq_nil.mp (List.append_eq_nil.mp ht.symm).1 with ⟨_, hn⟩
      exact hn
  | cons c rest ih =>
    simp only [hasSubstr, Bool.or_eq_true, isLeadingSeg_iff, ih]
    constructor
    · rintro (⟨t, ht⟩ | ⟨p, t, ht⟩)
      · exact ⟨[], t, by simp [ht]⟩
      · exact ⟨c :: p, t, by simp [ht]⟩
    · rintro ⟨p, t, ht⟩
      cases p with
      | nil => exact Or.inl ⟨t, by simpa using ht⟩
      | cons a p' =>
        right
        rw [List.cons_append, List.cons_append] at ht
        injection ht with h1 h2
        exact ⟨p', t, h2⟩

theorem pyContains_lower (s w : String) (hw : ∀ c ∈ w.toList, c.toLower = c)
    (h : pyContains s w = true) : pyContains (pyLower s) w = true := by
  unfold pyContains at h ⊢
  rw [hasSubstr_iff] at h ⊢
  obtain ⟨p, t, ht⟩ := h
  refine ⟨p.map Char.toLower, t.map Char.toLower, ?_⟩
  have : (pyLower s).toList = s.toList.map Char.toLower := by
    unfold pyLower; rw [toList_mk]
  have hmapw : w.toList.map Char.toLower = w.toList := by
    conv_rhs => rw [← List.map_id w.toList]
    exact List.map_congr_left hw
  rw [this, ht, List.map_append, List.map_append, hmapw]

/-! Helper lemmas about the Suggestion Generator. -/

theorem rule_based_length (s : String) : (_rule_based_motivation s).length = 3 := by
  unfold _rule_based_motivation
  dsimp only
  split
  · rfl
  · split
    · rfl
    · split
      · rfl
      · split <;> rfl

theorem rule_based_members (s : String) :
    ∀ m ∈ _rule_based_motivation s, m ≠ "" := by
  unfold _rule_based_motivation
  dsimp only
  split
  · decide
  · split
    · decide
    · split
      · decide
      · split <;> decide

theorem linesClean_le3 (content : String) : (linesClean content).length ≤ 3 := by
  unfold linesClean
  rw [List.length_take]
  exact Nat.min_le_left _ _

theorem parseArrayBranch_le3 (j : Json) : (parseArrayBranch j).length ≤ 3 := by
  unfold parseArrayBranch
  split
  · rw [List.length_take]; exact Nat.min_le_left _ _
  · simp

theorem call_remote_model_ok (c : RemoteCall) (l : List String)
    (h : call_remote_model c = Except.ok l) : l ≠ [] ∧ l.length ≤ 3 := by
  cases c with
  | httpError => simp [call_remote_model] at h
  | response content arrMatch =>
    simp only [call_remote_model] at h
    split at h
    · simp at h
    · rename_i hne
      injection h with h
      subst h
      refine ⟨by simpa [List.isEmpty_iff] using hne, ?_⟩
      rcases arrMatch with _ | _ | j
      · exact linesClean_le3 content
      · simpa using hne
      · dsimp only
        split
        · exact linesClean_le3 content
        · exact parseArrayBranch_le3 j

theorem gen_ok (env : RemoteEnv) (s : String) (h : pyStrip s ≠ "") :
    ∃ r, generate_motivation env (Json.str s) = Except.ok r ∧
      1 ≤ r.motivations.length ∧ r.motivations.length ≤ 3 ∧
      (env = RemoteEnv.notConfigured →
        r = { motivations := _rule_based_motivation s, source := "local" }) ∧
      (∀ call, env = RemoteEnv.configured call → call_remote_model call = Except.error () →
        r = { motivations := _rule_based_motivation s, source := "local" }) := by
  have hcond : (pyStrip s == "") = false := by
    simpa [beq_eq_false_iff_ne] using h
  unfold generate_motivation
  dsimp only
  rw [hcond]
  simp only [Bool.false_eq_true, if_false]
  cases env with
  | notConfigured =>
    refine ⟨_, rfl, ?_, ?_, fun _ => rfl, ?_⟩
    · rw [rule_based_length]; omega
    · rw [rule_based_length]
    · intro call hc; exact absurd hc (by simp)
  | configured call =>
    cases hc : call_remote_model call with
    | ok l =>
      obtain ⟨hne, hle⟩ := call_remote_model_ok call l hc
      refine ⟨{ motivations := l, source := "remote_model" }, ?_, ?_, hle, ?_, ?_⟩
      · dsimp only; rw [hc]
      · exact List.length_pos.mpr hne
      · intro hno; exact absurd hno (by simp)
      · intro call' hcall herr
        injection hcall with hcall
        subst hcall
        rw [hc] at herr
        exact absurd herr (by simp)
    | error e =>
      refine ⟨{ motivations := _rule_based_motivation s, source := "local" }, ?_, ?_, ?_, ?_,
        fun _ _ _ => rfl⟩
      · dsimp only; rw [hc]
      · show 1 ≤ (_rule_based_motivation s).length
        rw [rule_based_length]; omega
      · show (_rule_based_motivation s).length ≤ 3
        rw [rule_based_length]
      · intro hno; exact absurd hno (by simp)

/-! Helper lemmas about the Envelope Parser. -/

theorem foldl_pickLonger_spec : ∀ (xs : List String) (a : String),
    (xs.foldl pickLonger a = a ∧ ∀ y ∈ xs, y.length ≤ a.length) ∨
    (∃ pre post, xs = pre ++ xs.foldl pickLonger a :: post ∧
      a.length < (xs.foldl pickLonger a).length ∧
      (∀ y ∈ pre, y.length < (xs.foldl pickLonger a).length) ∧
      (∀ y ∈ post, y.length ≤ (xs.foldl pickLonger a).length)) := by
  intro xs
  induction xs with
  | nil => intro a; left; exact ⟨rfl, by simp⟩
  | cons y rest ih =>
    intro a
    rw [List.foldl_cons]
    by_cases hy : a.length < y.length
    · rw [show pickLonger a y = y from if_pos hy]
      rcases ih y with ⟨he, hall⟩ | ⟨pre, post, heq, hlt, hpre, hpost⟩
      · right
        refine ⟨[], rest, by rw [he]; simp, ?_, by simp, ?_⟩
        · rw [he]; exact hy
        · rw [he]; exact hall
      · right
        refine ⟨y :: pre, post, ?_, ?_, ?_, hpost⟩
        · rw [List.cons_append, ← heq]
        · exact Nat.lt_trans hy hlt
        · intro z hz
          rcases List.mem_cons.mp hz with rfl | hz
          · exact hlt
          · exact hpre z hz
    · rw [show pickLonger a y = a from if_neg hy]
      rcases ih a with ⟨he, hall⟩ | ⟨pre, post, heq, hlt, hpre, hpost⟩
      · left
        refine ⟨he, ?_⟩
        intro z hz
        rcases List.mem_cons.mp hz with rfl | hz
        · omega
        · exact hall z hz
      · right
        refine ⟨y :: pre, post, ?_, hlt, ?_, hpost⟩
        · rw [List.cons_append, ← heq]
        · intro z hz
          rcases List.mem_cons.mp hz with rfl | hz
          · omega
          · exact hpre z hz

theorem pyMaxByLen_spec (l : List String) (sel : String) (h : pyMaxByLen l = some sel) :
    sel ∈ l ∧ (∀ y ∈ l, y.length ≤ sel.length) ∧
      ∃ pre post, l = pre ++ sel :: post ∧ ∀ y ∈ pre, y.length < sel.length := by
  cases l with
  | nil => simp [pyMaxByLen] at h
  | cons x xs =>
    simp only [pyMaxByLen, Option.some.injEq] at h
    rcases foldl_pickLonger_spec xs x with ⟨he, hall⟩ | ⟨pre, post, heq, hlt, hpre, hpost⟩
    · rw [he] at h
      subst h
      refine ⟨List.mem_cons_self _ _, ?_, [], xs, by simp, by simp⟩
      intro y hy
      rcases List.mem_cons.mp hy with rfl | hy
      · exact Nat.le_refl _
      · exact hall y hy
    · rw [h] at heq hlt hpre hpost
      refine ⟨?_, ?_, x :: pre, post, ?_, ?_⟩
      · refine List.mem_cons_of_mem x ?_
        rw [heq]
        exact List.mem_append_right pre (List.mem_cons_self _ _)
      · intro y hy
        rcases List.mem_cons.mp hy with rfl | hy
        · exact Nat.le_of_lt hlt
        · rw [heq] at hy
          rcases List.mem_append.mp hy with hy | hy
          · exact Nat.le_of_lt (hpre y hy)
          · rcases List.mem_cons.mp hy with rfl | hy
            · exact Nat.le_refl _
            · exact hpost y hy
      · rw [List.cons_append, ← heq]
      · intro y hy
        rcases List.mem_cons.mp hy with rfl | hy
        · exact hlt
        · exact hpre y hy

theorem mem_collected (ps : List Json) (m : String) (h : m ∈ collected_texts ps) :
    pyStrip m = m ∧ m ≠ "" := by
  unfold collected_texts at h
  rcases List.mem_filterMap.mp h with ⟨part, _, hsome⟩
  unfold process_part at hsome
  cases part with
  | obj kvs =>
    dsimp only at hsome
    split at hsome
    · split at hsome
      · simp at hsome
      · split at hsome
        · rename_i hguard
          injection hsome with hsome
          subst hsome
          refine ⟨pyStrip_idem _, ?_⟩
          have := (Bool.and_eq_true _ _).mp hguard |>.1
          simpa [bne_iff_ne] using this
        · simp at hsome
    · simp at hsome
  | null => simp at hsome
  | bool b => simp at hsome
  | num n => simp at hsome
  | str s => simp at hsome
  | arr l => simp at hsome

theorem user_input_valid (message_obj : Json) :
    pyStrip (user_input_of message_obj) ≠ "" := by
  unfold user_input_of
  cases message_obj with
  | obj mkvs =>
    dsimp only
    split
    · rename_i m hmax
      split
      · decide
      · rename_i hne
        obtain ⟨hmem, -, -⟩ := pyMaxByLen_spec _ _ hmax
        obtain ⟨hfix, -⟩ := mem_collected _ _ hmem
        rw [hfix]
        simpa using hne
    · decide
  | null => exact (by decide : pyStrip "Give me motivation" ≠ "")
  | bool b => exact (by decide : pyStrip "Give me motivation" ≠ "")
  | num n => exact (by decide : pyStrip "Give me motivation" ≠ "")
  | str s => exact (by decide : pyStrip "Give me motivation" ≠ "")
  | arr l => exact (by decide : pyStrip "Give me motivation" ≠ "")

/-! Helper lemmas about the Dispatch Controller. -/

theorem message_send_respond_eq (gen : Except GenError GenResult) (b wc mid idv : Json) :
    message_send_respond gen b wc mid idv =
      { status := 200,
        body := ms_success_body (process_and_respond gen b wc mid).1 idv,
        webhooks := (process_and_respond gen b wc mid).2 } := by
  unfold message_send_respond
  dsimp only
  split <;> rfl

theorem process_and_respond_ok (r : GenResult) (b wc mid : Json) :
    process_and_respond (Except.ok r) b wc mid =
      (r.motivations.map (fun m => { kind := "text", text := m : Output }),
       if (!pyTruthy b && pyTruthy wc) = true then
         (if (pyTruthy (pyGetJ wc "url") && pyTruthy (pyGetJ wc "token") && pyTruthy mid) = true then
            [{ url := pyGetJ wc "url", token := pyGetJ wc "token",
               outputs := r.motivations.map (fun m => { kind := "text", text := m : Output }),
               message_id := mid }]
          else [])
       else []) := rfl

theorem getJ_truthy (j : Json) (k : String) (h : pyTruthy (pyGetJ j k) = true) :
    pyTruthy j = true := by
  cases j with
  | obj kvs =>
    cases kvs with
    | nil => simp [pyGetJ, pyGet, pyGetD, pyTruthy] at h
    | cons e rest => simp [pyTruthy]
  | null => simp [pyGetJ, pyTruthy] at h
  | bool b => simp [pyGetJ, pyTruthy] at h
  | num n => simp [pyGetJ, pyTruthy] at h
  | str s => simp [pyGetJ, pyTruthy] at h
  | arr l => simp [pyGetJ, pyTruthy] at h

theorem webhook_url_truthy_params (params : Json)
    (h : pyTruthy (pyGetJ (webhook_of params) "url") = true) : pyTruthy params = true := by
  cases params with
  | obj pkvs =>
    cases pkvs with
    | nil => simp [webhook_of, pyGetJ, pyGet, pyGetD, pyTruthy] at h
    | cons e rest => simp [pyTruthy]
  | null => simp [webhook_of, pyGetJ, pyTruthy] at h
  | bool b => simp [webhook_of, pyGetJ, pyTruthy] at h
  | num n => simp [webhook_of, pyGetJ, pyTruthy] at h
  | str s => simp [webhook_of, pyGetJ, pyTruthy] at h
  | arr l => simp [webhook_of, pyGetJ, pyTruthy] at h

/-! Claim theorems. -/

/-- C10: the local rule-based generator is total and returns exactly 3
suggestions for every input string (not merely between 1 and 3); each of the
five branches, including the generic else branch, yields exactly three fixed
non-empty strings. -/
theorem claim_rule_based_total_three (s : String) :
    (_rule_based_motivation s).length = 3 ∧ ∀ m ∈ _rule_based_motivation s, m ≠ "" :=
  ⟨rule_based_length s, rule_based_members s⟩

/-- C5: the rule-based generator classifies the lowercased input with
first-match-wins category order; every input containing both exam and tired
as substrings resolves to the exam category and returns its fixed
three-message template verbatim. -/
theorem claim_rule_based_first_match (s : String)
    (h1 : pyContains s "exam" = true) (h2 : pyContains s "tired" = true) :
    _rule_based_motivation s =
      ["You've prepared for this! Trust your knowledge and take it one question at a time. 📚",
       "Take deep breaths before starting. A calm mind recalls information better than a stressed one. 🧘",
       "Remember: You don't need perfection, just progress. Answer what you know first, then tackle the rest. ✨"] := by
  have hx : pyContains (pyLower s) "exam" = true :=
    pyContains_lower s "exam" (by decide) h1
  have hany : containsAny (pyLower s) ["exam", "test", "quiz", "midterm", "final"] = true := by
    simp only [containsAny, List.any_cons, Bool.or_eq_true]
    exact Or.inl hx
  unfold _rule_based_motivation
  dsimp only
  rw [if_pos hany]

/-- Witness for C5 at a concrete input containing both keywords. -/
theorem claim_rule_based_first_match_witness :
    pyContains "so tired of studying for this exam" "exam" = true ∧
    pyContains "so tired of studying for this exam" "tired" = true ∧
    _rule_based_motivation "so tired of studying for this exam" =
      ["You've prepared for this! Trust your knowledge and take it one question at a time. 📚",
       "Take deep breaths before starting. A calm mind recalls information better than a stressed one. 🧘",
       "Remember: You don't need perfection, just progress. Answer what you know first, then tackle the rest. ✨"] :=
  ⟨by decide, by decide, claim_rule_based_first_match _ (by decide) (by decide)⟩

/-- C7: every input that is not a string, or strips to the empty string, is
rejected by generate_motivation with the invalid-input error, for every
remote environment, hence before any generation is attempted. -/
theorem claim_invalid_input_rejected (env : RemoteEnv) (j : Json)
    (h : invalid_user_input j = true) :
    generate_motivation env j = Except.error GenError.invalidInput := by
  cases j with
  | str s =>
    have hc : (pyStrip s == "") = true := by simpa [invalid_user_input] using h
    unfold generate_motivation
    dsimp only
    rw [hc]
    simp
  | null => rfl
  | bool b => rfl
  | num n => rfl
  | arr l => rfl
  | obj kvs => rfl

/-- Witness for C7 at a whitespace-only string input. -/
theorem claim_invalid_input_rejected_witness :
    invalid_user_input (Json.str "   ") = true ∧
    generate_motivation RemoteEnv.notConfigured (Json.str "   ") =
      Except.error GenError.invalidInput :=
  ⟨by decide, claim_invalid_input_rejected RemoteEnv.notConfigured (Json.str "   ") (by decide)⟩

/-- C3 (amended): for every non-empty input string and every outcome of the
single remote-model attempt, generate_motivation succeeds with a non-empty
list of at most three strings; when the remote path is unconfigured or its
call fails, the failure is absorbed into the successful local rule-based
result and never surfaced. -/
theorem claim_generate_motivation_bounds (env : RemoteEnv) (s : String) (h : pyStrip s ≠ "") :
    ∃ r, generate_motivation env (Json.str s) = Except.ok r ∧
      1 ≤ r.motivations.length ∧ r.motivations.length ≤ 3 ∧
      (env = RemoteEnv.notConfigured →
        r = { motivations := _rule_based_motivation s, source := "local" }) ∧
      (∀ call, env = RemoteEnv.configured call → call_remote_model call = Except.error () →
        r = { motivations := _rule_based_motivation s, source := "local" }) :=
  gen_ok env s h

/-- Witness for C3 at a concrete non-empty input with no remote endpoint. -/
theorem claim_generate_motivation_bounds_witness :
    pyStrip "I feel stuck" ≠ "" ∧
    ∃ r, generate_motivation RemoteEnv.notConfigured (Json.str "I feel stuck") = Except.ok r ∧
      1 ≤ r.motivations.length ∧ r.motivations.length ≤ 3 ∧
      (RemoteEnv.notConfigured = RemoteEnv.notConfigured →
        r = { motivations := _rule_based_motivation "I feel stuck", source := "local" }) ∧
      (∀ call, RemoteEnv.notConfigured = RemoteEnv.configured call →
        call_remote_model call = Except.error () →
        r = { motivations := _rule_based_motivation "I feel stuck", source := "local" }) :=
  ⟨by decide, claim_generate_motivation_bounds RemoteEnv.notConfigured "I feel stuck" (by decide)⟩

/-- C3 counterexample: a configured remote endpoint whose reply content is
the JSON array with one empty string makes generate_motivation succeed with
motivations equal to a list containing the empty string, so the returned
strings are not all non-empty as the claim states. -/
theorem claim_generate_motivation_nonempty_cex :
    generate_motivation
      (RemoteEnv.configured (RemoteCall.response "[\"\"]" (some (some (Json.arr [Json.str ""])))))
      (Json.str "I need help") =
      Except.ok { motivations := [""], source := "remote_model" } := rfl

/-- C4 counterexample: status 203 is a 2xx response, yet the notifier
reports failure, because src/main.py line 90 tests membership in the literal
list [200, 201, 202, 204] rather than the whole 2xx range. -/
theorem claim_webhook_2xx_cex :
    send_webhook_notification (Except.ok 203) = false ∧ 200 ≤ 203 ∧ 203 < 300 :=
  ⟨rfl, by omega, by omega⟩

/-- C4 (amended): the Webhook Notifier performs exactly one delivery attempt
(its single POST outcome is its only input) and returns True iff the
response status is one of 200, 201, 202 or 204; on any exception or any
other status, including other 2xx statuses, it returns False to its caller
and never raises or retries. -/
theorem claim_webhook_success_iff (attempt : Except Unit Nat) :
    send_webhook_notification attempt = true ↔
      ∃ st, attempt = Except.ok st ∧ (st = 200 ∨ st = 201 ∨ st = 202 ∨ st = 204) := by
  cases attempt with
  | error e => simp [send_webhook_notification]
  | ok st =>
    simp only [send_webhook_notification, Bool.or_eq_true, beq_iff_eq, Except.ok.injEq]
    constructor
    · intro hd
      exact ⟨st, rfl, by tauto⟩
    · rintro ⟨st', hst, hd⟩
      subst hst
      tauto

/-- C1 (code evaluation): when the generation call inside process_and_respond
fails, the message/send response construction returns HTTP 200 with an empty
outputs list and no webhook delivery — not the 500 server error with code
-32000 that the specification requires — because the except branch on
src/main.py lines 186-188 swallows the error and returns an empty list,
leaving the 500 branches on lines 205-207 and 216-218 unreachable. -/
theorem claim_gen_failure_returns_200_empty (blocking webhook_config message_id id_val : Json) :
    message_send_respond (Except.error GenError.invalidInput)
        blocking webhook_config message_id id_val =
      { status := 200,
        body := Json.obj [("jsonrpc", Json.str "2.0"),
                          ("result", Json.obj [("outputs", Json.arr [])]),
                          ("id", id_val)],
        webhooks := [] } := by
  rw [message_send_respond_eq]
  rfl

/-- C8: a request dict whose jsonrpc field differs from "2.0" is rejected
with HTTP 400 and JSON-RPC code -32600 echoing the request id, whatever the
method field holds, for every remote environment, and with no webhook
deliveries — so before any method dispatch or generation. -/
theorem claim_jsonrpc_version_check (env : RemoteEnv) (kvs : List (String × Json))
    (h : Json.beq (pyGet kvs "jsonrpc") (Json.str "2.0") = false) :
    handle_jsonrpc env (Json.obj kvs) =
      { status := 400,
        body := jsonrpc_error (-32600) "Invalid Request: unsupported jsonrpc version"
          (pyGet kvs "id"),
        webhooks := [] } := by
  unfold handle_jsonrpc
  dsimp only
  rw [h]
  rfl

/-- Witness for C8 at a concrete request naming the message/send method with
protocol version 1.0. -/
theorem claim_jsonrpc_version_check_witness :
    Json.beq (pyGet [("jsonrpc", Json.str "1.0"), ("method", Json.str "message/send"),
      ("id", Json.num 7)] "jsonrpc") (Json.str "2.0") = false ∧
    handle_jsonrpc RemoteEnv.notConfigured
      (Json.obj [("jsonrpc", Json.str "1.0"), ("method", Json.str "message/send"),
        ("id", Json.num 7)]) =
      { status := 400,
        body := jsonrpc_error (-32600) "Invalid Request: unsupported jsonrpc version" (Json.num 7),
        webhooks := [] } :=
  ⟨rfl, claim_jsonrpc_version_check RemoteEnv.notConfigured
    [("jsonrpc", Json.str "1.0"), ("method", Json.str "message/send"), ("id", Json.num 7)] rfl⟩

/-- C2: a message/send request with blocking false and a push notification
config whose url and token are truthy, and a truthy messageId in the
message, yields a synchronous 200 response whose result.outputs list is
non-empty, and exactly one webhook delivery carrying exactly that same
outputs list, in the same order, to that url with that token and messageId. -/
theorem claim_nonblocking_webhook_delivery (env : RemoteEnv) (params id_val : Json)
    (hb : pyTruthy (blocking_of params) = false)
    (hu : pyTruthy (pyGetJ (webhook_of params) "url") = true)
    (ht : pyTruthy (pyGetJ (webhook_of params) "token") = true)
    (hm : pyTruthy (message_id_of (message_obj_of params)) = true) :
    ∃ outs : List Output, outs ≠ [] ∧
      handle_jsonrpc env (Json.obj [("jsonrpc", Json.str "2.0"),
          ("method", Json.str "message/send"), ("params", params), ("id", id_val)]) =
        { status := 200, body := ms_success_body outs id_val,
          webhooks := [{ url := pyGetJ (webhook_of params) "url",
                         token := pyGetJ (webhook_of params) "token",
                         outputs := outs,
                         message_id := message_id_of (message_obj_of params) }] } := by
  have hwc : pyTruthy (webhook_of params) = true := getJ_truthy _ _ hu
  have hP : pyTruthy params = true := webhook_url_truthy_params params hu
  obtain ⟨r, hgen, h1, -, -, -⟩ :=
    gen_ok env (user_input_of (message_obj_of params)) (user_input_valid _)
  refine ⟨r.motivations.map (fun m => { kind := "text", text := m : Output }), ?_, ?_⟩
  · intro hnil
    have hlen := congrArg List.length hnil
    simp only [List.length_map, List.length_nil] at hlen
    omega
  · have hstep : handle_jsonrpc env (Json.obj [("jsonrpc", Json.str "2.0"),
        ("method", Json.str "message/send"), ("params", params), ("id", id_val)]) =
        message_send env (if pyTruthy params then params else Json.obj []) id_val := rfl
    rw [hstep, if_pos hP]
    show message_send_respond
        (generate_motivation env (Json.str (user_input_of (message_obj_of params))))
        (blocking_of params) (webhook_of params)
        (message_id_of (message_obj_of params)) id_val = _
    rw [hgen, message_send_respond_eq, process_and_respond_ok]
    rw [hb, hwc, hu, ht, hm]
    simp

/-- C9: a message/send request with blocking false and a push notification
config supplying a truthy url but whose token is falsy or whose messageId is
falsy attempts no webhook delivery, while the synchronous response still
succeeds with 200 and a non-empty generated outputs list. -/
theorem claim_webhook_needs_token_and_mid (env : RemoteEnv) (params id_val : Json)
    (hb : pyTruthy (blocking_of params) = false)
    (hu : pyTruthy (pyGetJ (webhook_of params) "url") = true)
    (hmiss : pyTruthy (pyGetJ (webhook_of params) "token") = false ∨
             pyTruthy (message_id_of (message_obj_of params)) = false) :
    ∃ outs : List Output, outs ≠ [] ∧
      handle_jsonrpc env (Json.obj [("jsonrpc", Json.str "2.0"),
          ("method", Json.str "message/send"), ("params", params), ("id", id_val)]) =
        { status := 200, body := ms_success_body outs id_val, webhooks := [] } := by
  have hwc : pyTruthy (webhook_of params) = true := getJ_truthy _ _ hu
  have hP : pyTruthy params = true := webhook_url_truthy_params params hu
  obtain ⟨r, hgen, h1, -, -, -⟩ :=
    gen_ok env (user_input_of (message_obj_of params)) (user_input_valid _)
  have hinner : (pyTruthy (pyGetJ (webhook_of params) "url") &&
      pyTruthy (pyGetJ (webhook_of params) "token") &&
      pyTruthy (message_id_of (message_obj_of params))) = false := by
    rcases hmiss with h | h <;> simp [h]
  refine ⟨r.motivations.map (fun m => { kind := "text", text := m : Output }), ?_, ?_⟩
  · intro hnil
    have hlen := congrArg List.length hnil
    simp only [List.length_map, List.length_nil] at hlen
    omega
  · have hstep : handle_jsonrpc env (Json.obj [("jsonrpc", Json.str "2.0"),
        ("method", Json.str "message/send"), ("params", params), ("id", id_val)]) =
        message_send env (if pyTruthy params then params else Json.obj []) id_val := rfl
    rw [hstep, if_pos hP]
    show message_send_respond
        (generate_motivation env (Json.str (user_input_of (message_obj_of params))))
        (blocking_of params) (webhook_of params)
        (message_id_of (message_obj_of params)) id_val = _
    rw [hgen, message_send_respond_eq, process_and_respond_ok]
    rw [hinner]
    simp

/-- C6: the Envelope Parser selects, among the candidate texts that survive
the kind filter, tag stripping, whitespace collapsing and filler-word
dropping, the longest one with ties broken by first occurrence; when no
candidate remains (for instance an empty parts array) it falls back to the
fixed default input, and the message/send call still returns a non-empty
outputs list. -/
theorem claim_envelope_selection (env : RemoteEnv) (ps : List Json) (id_val : Json) :
    (∀ sel, pyMaxByLen (collected_texts ps) = some sel →
      user_input_of (Json.obj [("parts", Json.arr ps)]) = sel ∧
      sel ∈ collected_texts ps ∧
      (∀ y ∈ collected_texts ps, y.length ≤ sel.length) ∧
      ∃ pre post, collected_texts ps = pre ++ sel :: post ∧
        ∀ y ∈ pre, y.length < sel.length) ∧
    (collected_texts ps = [] →
      user_input_of (Json.obj [("parts", Json.arr ps)]) = "Give me motivation" ∧
      ∃ outs : List Output, outs ≠ [] ∧
        message_send env (Json.obj [("message", Json.obj [("parts", Json.arr ps)])]) id_val =
          { status := 200, body := ms_success_body outs id_val, webhooks := [] }) := by
  constructor
  · intro sel hmax
    obtain ⟨hmem, hmaxlen, pre, post, hdecomp, hpre⟩ := pyMaxByLen_spec _ _ hmax
    obtain ⟨-, hne⟩ := mem_collected _ _ hmem
    refine ⟨?_, hmem, hmaxlen, pre, post, hdecomp, hpre⟩
    show (match pyMaxByLen (collected_texts ps) with
          | some m => if (m == "") = true then "Give me motivation" else m
          | none => "Give me motivation") = sel
    rw [hmax]
    simp [hne]
  · intro hnil
    constructor
    · show (match pyMaxByLen (collected_texts ps) with
            | some m => if (m == "") = true then "Give me motivation" else m
            | none => "Give me motivation") = "Give me motivation"
      rw [hnil]
      rfl
    · obtain ⟨r, hgen, h1, -, -, -⟩ :=
        gen_ok env (user_input_of (Json.obj [("parts", Json.arr ps)])) (user_input_valid _)
      refine ⟨r.motivations.map (fun m => { kind := "text", text := m : Output }), ?_, ?_⟩
      · intro hn
        have hlen := congrArg List.length hn
        simp only [List.length_map, List.length_nil] at hlen
        omega
      · show message_send_respond
            (generate_motivation env
              (Json.str (user_input_of (Json.obj [("parts", Json.arr ps)]))))
            (Json.bool true) Json.null Json.null id_val = _
        rw [hgen, message_send_respond_eq, process_and_respond_ok]
        simp [pyTruthy]

/-- Witness for C2 at a concrete non-blocking request with a complete push
notification config. -/
theorem claim_nonblocking_webhook_delivery_witness :
    pyTruthy (blocking_of sample_params_full) = false ∧
    pyTruthy (pyGetJ (webhook_of sample_params_full) "url") = true ∧
    pyTruthy (pyGetJ (webhook_of sample_params_full) "token") = true ∧
    pyTruthy (message_id_of (message_obj_of sample_params_full)) = true ∧
    ∃ outs : List Output, outs ≠ [] ∧
      handle_jsonrpc RemoteEnv.notConfigured (Json.obj [("jsonrpc", Json.str "2.0"),
          ("method", Json.str "message/send"), ("params", sample_params_full),
          ("id", Json.num 5)]) =
        { status := 200, body := ms_success_body outs (Json.num 5),
          webhooks := [{ url := pyGetJ (webhook_of sample_params_full) "url",
                         token := pyGetJ (webhook_of sample_params_full) "token",
                         outputs := outs,
                         message_id := message_id_of (message_obj_of sample_params_full) }] } :=
  ⟨rfl, rfl, rfl, rfl,
    claim_nonblocking_webhook_delivery RemoteEnv.notConfigured sample_params_full (Json.num 5)
      rfl rfl rfl rfl⟩

/-- Witness for C9 at a concrete non-blocking request whose push
notification config has a url but no token. -/
theorem claim_webhook_needs_token_and_mid_witness :
    pyTruthy (blocking_of sample_params_no_token) = false ∧
    pyTruthy (pyGetJ (webhook_of sample_params_no_token) "url") = true ∧
    pyTruthy (pyGetJ (webhook_of sample_params_no_token) "token") = false ∧
    ∃ outs : List Output, outs ≠ [] ∧
      handle_jsonrpc RemoteEnv.notConfigured (Json.obj [("jsonrpc", Json.str "2.0"),
          ("method", Json.str "message/send"), ("params", sample_params_no_token),
          ("id", Json.num 6)]) =
        { status := 200, body := ms_success_body outs (Json.num 6), webhooks := [] } :=
  ⟨rfl, rfl, rfl,
    claim_webhook_needs_token_and_mid RemoteEnv.notConfigured sample_params_no_token (Json.num 6)
      rfl rfl (Or.inl rfl)⟩

/-- Witness for C6: on the sample parts the filler is dropped and the longer
text is selected; on an empty parts array the default input is used and the
call still yields a non-empty outputs list. -/
theorem claim_envelope_selection_witness :
    user_input_of (Json.obj [("parts", Json.arr sample_parts)]) = "I am stuck and need help" ∧
    user_input_of (Json.obj [("parts", Json.arr [])]) = "Give me motivation" ∧
    ∃ outs : List Output, outs ≠ [] ∧
      message_send RemoteEnv.notConfigured
        (Json.obj [("message", Json.obj [("parts", Json.arr [])])]) (Json.num 3) =
        { status := 200, body := ms_success_body outs (Json.num 3), webhooks := [] } := by
  refine ⟨?_, ?_, ?_⟩
  · exact ((claim_envelope_selection RemoteEnv.notConfigured sample_parts (Json.num 3)).1
      "I am stuck and need help" (by rfl)).1
  · exact ((claim_envelope_selection RemoteEnv.notConfigured [] (Json.num 3)).2 rfl).1
  · exact ((claim_envelope_selection RemoteEnv.notConfigured [] (Json.num 3)).2 rfl).2
